import Mathlib

/-!
# Verification of the research-paper-pipeline biomarker aggregation code

Shallow embedding of `scripts/biomarker_aggregator.py`,
`scripts/process_papers.py` + `scripts/summarize.py` (retry behaviour) and
`scripts/langchain_pipeline.py` (quality validation), together with theorems
settling the specification claims.

Modelling conventions:
* Python strings are modelled as `List Char` (`PyStr`); the ASCII fragment of
  `str.upper`/`str.lower`/`\s` is used, matching the data the pipeline handles.
* Python dicts (which iterate in insertion order) are modelled as association
  lists; `set` objects are modelled as duplicate-free lists built by
  `setAdd` (insert-if-absent).
* Python floats are modelled by `ℚ`; every numeric value appearing in a claim
  (`5/10`, `12/10` capped, `k/7`) is exactly representable.
* `sorted(..., reverse=True)` / `list.sort(reverse=True)` are stable descending
  sorts; they are modelled by `List.insertionSort` with the reflexive total
  relation "count ≥ count", which is the unique stable sort.
-/

/-- Python strings, modelled as lists of characters. -/
abbrev PyStr := List Char

/-- Characters matched by the regex class `[-_\s]` used in
`normalize_biomarker_name` (ASCII fragment: `-`, `_`, space, tab, newline,
carriage return, vertical tab, form feed). -/
def isSeparatorChar (c : Char) : Bool :=
  c.toNat = 45 || c.toNat = 95 || c.toNat = 32 || c.toNat = 9 ||
  c.toNat = 10 || c.toNat = 13 || c.toNat = 11 || c.toNat = 12

/-- Python `str.upper()` (ASCII fragment), character map. -/
def pyUpper (s : PyStr) : PyStr := s.map Char.toUpper

/-- Python `str.lower()` (ASCII fragment), character map. -/
def pyLower (s : PyStr) : PyStr := s.map Char.toLower

/-- The anchored substitution `re.sub(r'^(GENE|PROTEIN|BIOMARKER):', '', _)`:
an anchored pattern is replaced at most once, at the start of the string. -/
def dropTypeTag (s : PyStr) : PyStr :=
  if ("GENE:".toList).isPrefixOf s then s.drop 5
  else if ("PROTEIN:".toList).isPrefixOf s then s.drop 8
  else if ("BIOMARKER:".toList).isPrefixOf s then s.drop 10
  else s

/-- `BiomarkerAggregator.normalize_biomarker_name`: empty input maps to the
empty string; otherwise separators are removed, the string is upper-cased and
a single leading `GENE:`/`PROTEIN:`/`BIOMARKER:` tag is stripped. -/
def normalize_biomarker_name (name : PyStr) : PyStr :=
  if name = [] then []
  else dropTypeTag (pyUpper (name.filter (fun c => ¬ isSeparatorChar c)))

/-! ### Aggregator data model (`BiomarkerAggregator`) -/

/-- Lookup in an insertion-ordered association list (Python dict). -/
def alistFind {α : Type} (m : List (PyStr × α)) (k : PyStr) : Option α :=
  match m with
  | [] => none
  | (k₂, v) :: rest => if k₂ = k then some v else alistFind rest k

/-- Update in an insertion-ordered association list: an existing key keeps its
position, a fresh key is appended at the end (Python dict semantics). -/
def alistSet {α : Type} (m : List (PyStr × α)) (k : PyStr) (v : α) :
    List (PyStr × α) :=
  match m with
  | [] => [(k, v)]
  | (k₂, v₂) :: rest =>
      if k₂ = k then (k, v) :: rest else (k₂, v₂) :: alistSet rest k v

/-- Python `set.add`, on the duplicate-free list model of a set. -/
def setAdd (xs : List PyStr) (x : PyStr) : List PyStr :=
  if x ∈ xs then xs else xs ++ [x]

/-- Per-disease record held in `biomarkers[name]['diseases'][disease]`. -/
structure DiseaseData where
  papers : List PyStr
  association_types : List PyStr
  evidence_levels : List PyStr
deriving DecidableEq

/-- The default value the inner `defaultdict` creates for a new disease. -/
def emptyDiseaseData : DiseaseData :=
  { papers := [], association_types := [], evidence_levels := [] }

/-- Per-biomarker record held in `self.biomarkers[normalized]`. -/
structure BioData where
  normalized_name : PyStr
  variants : List PyStr
  diseases : List (PyStr × DiseaseData)
  total_mentions : Nat
  first_seen : Option PyStr
  last_seen : Option PyStr
deriving DecidableEq

/-- The default value the outer `defaultdict` creates for a new biomarker. -/
def emptyBioData : BioData :=
  { normalized_name := [], variants := [], diseases := [],
    total_mentions := 0, first_seen := none, last_seen := none }

/-- The aggregation index `self.biomarkers`. -/
abbrev Agg := List (PyStr × BioData)

/-- One entry of a paper's `biomarkers` list, as a dict; every field is read
with `.get` and a default, so fields are optional. -/
structure Biomarker where
  name : Option PyStr
  diseases : Option (List PyStr)
  association_type : Option PyStr
  evidence_level : Option PyStr
deriving DecidableEq

/-- An element of `paper_result['biomarkers']`: either a dict or some other
value (non-dicts are skipped by `add_paper_results`). -/
inductive BmEntry where
  | dict (b : Biomarker)
  | other
deriving DecidableEq

/-- A `paper_result` dict as read by `add_paper_results` (`filename`, `title`
and `biomarkers` are read with `.get` and defaults). -/
structure PaperResult where
  filename : Option PyStr
  title : Option PyStr
  biomarkers : Option (List BmEntry)
deriving DecidableEq

/-- The body of the `for disease in diseases` loop of `add_paper_results`:
falsy (empty) disease names are skipped, the key is lower-cased, and the
filename / association type / evidence level are added to the three sets. -/
def addDisease (filename assoc evid : PyStr)
    (ds : List (PyStr × DiseaseData)) (disease : PyStr) :
    List (PyStr × DiseaseData) :=
  if disease = [] then ds
  else
    let key := pyLower disease
    let dd := (alistFind ds key).getD emptyDiseaseData
    alistSet ds key
      { papers := setAdd dd.papers filename,
        association_types := setAdd dd.association_types assoc,
        evidence_levels := setAdd dd.evidence_levels evid }

/-- The body of the `for biomarker in biomarkers_data` loop of
`add_paper_results`: non-dict entries and entries whose raw name is falsy are
skipped; otherwise the normalized entry is created/updated. -/
def addBiomarker (timestamp filename : PyStr) (s : Agg) (e : BmEntry) : Agg :=
  match e with
  | .other => s
  | .dict b =>
    let raw_name := b.name.getD []
    let diseases := b.diseases.getD []
    let assoc := b.association_type.getD ("unknown".toList)
    let evid := b.evidence_level.getD ("unknown".toList)
    if raw_name = [] then s
    else
      let normalized := normalize_biomarker_name raw_name
      let bio := (alistFind s normalized).getD emptyBioData
      let bio :=
        { bio with
          normalized_name := normalized,
          variants := setAdd bio.variants raw_name,
          total_mentions := bio.total_mentions + 1,
          first_seen := some (bio.first_seen.getD timestamp),
          last_seen := some timestamp }
      let bio :=
        { bio with
          diseases := diseases.foldl (addDisease filename assoc evid)
            bio.diseases }
      alistSet s normalized bio

/-- `BiomarkerAggregator.add_paper_results` (the `datetime.now()` timestamp is
passed explicitly). -/
def add_paper_results (timestamp : PyStr) (s : Agg) (p : PaperResult) : Agg :=
  let filename := p.filename.getD ("unknown".toList)
  let biomarkers_data := p.biomarkers.getD []
  if biomarkers_data = [] then s
  else biomarkers_data.foldl (addBiomarker timestamp filename) s


/-! ### `get_summary` -/

/-- `defaultdict(int)` accumulation: `m[k] += n`. -/
def alistAdd (m : List (PyStr × Nat)) (k : PyStr) (n : Nat) :
    List (PyStr × Nat) :=
  alistSet m k ((alistFind m k).getD 0 + n)

/-- The `all_diseases` accumulator of `get_summary`: for every biomarker and
every disease key it holds, the *length of that biomarker's paper set* is
added to the disease's counter (a document reaching a disease through several
biomarkers is counted once per biomarker). -/
def allDiseases (s : Agg) : List (PyStr × Nat) :=
  s.foldl
    (fun acc kv =>
      kv.2.diseases.foldl
        (fun acc2 dv => alistAdd acc2 dv.1 dv.2.papers.length) acc)
    []

/-- Descending-by-count ordering used by `sorted(..., key=lambda x: x[1],
reverse=True)` on `(name, count)` pairs. -/
def countGE (a b : PyStr × Nat) : Prop := b.2 ≤ a.2

instance : DecidableRel countGE := fun a b => Nat.decLe b.2 a.2

instance : IsTotal (PyStr × Nat) countGE := ⟨fun a b => le_total b.2 a.2⟩

instance : IsTrans (PyStr × Nat) countGE :=
  ⟨fun _ _ _ h1 h2 => le_trans h2 h1⟩

/-- The full stable descending sort of `all_diseases`
(`sorted(all_diseases.items(), key=lambda x: x[1], reverse=True)`). -/
def topDiseasesSorted (s : Agg) : List (PyStr × Nat) :=
  List.insertionSort countGE (allDiseases s)

/-- The `(name, total_mentions)` pairs of `self.biomarkers.items()`. -/
def mentionPairs (s : Agg) : List (PyStr × Nat) :=
  s.map (fun kv => (kv.1, kv.2.total_mentions))

/-- Result dict of `BiomarkerAggregator.get_summary` (the two top lists keep
the pair form the dict comprehension serialises). -/
structure SummaryOut where
  total_unique_biomarkers : Nat
  total_biomarker_disease_associations : Nat
  top_biomarkers : List (PyStr × Nat)
  top_diseases : List (PyStr × Nat)
deriving DecidableEq

/-- `BiomarkerAggregator.get_summary`. -/
def get_summary (s : Agg) : SummaryOut :=
  { total_unique_biomarkers := s.length,
    total_biomarker_disease_associations :=
      (s.map (fun kv => kv.2.diseases.length)).sum,
    top_biomarkers :=
      (List.insertionSort countGE (mentionPairs s)).take 10,
    top_diseases := (topDiseasesSorted s).take 10 }

/-- Spec-side notion used by claim C3: the number of *distinct* documents
contributing to a condition, i.e. the size of the union of the paper sets of
all biomarkers associated with that condition. -/
def specDistinctContributingDocs (s : Agg) (disease : PyStr) : Nat :=
  (s.foldl
    (fun acc kv =>
      (((alistFind kv.2.diseases disease).map DiseaseData.papers).getD
        []).foldl setAdd acc)
    []).length

/-! ### `get_biomarker_details` -/

/-- One serialised disease association inside `get_biomarker_details`. -/
structure DiseaseDetail where
  disease : PyStr
  paper_count : Nat
  papers : List PyStr
  association_types : List PyStr
  evidence_levels : List PyStr
deriving DecidableEq

/-- Result dict of `get_biomarker_details`. -/
structure BiomarkerDetails where
  normalized_name : PyStr
  name_variants : List PyStr
  total_mentions : Nat
  disease_associations : List DiseaseDetail
  first_seen : Option PyStr
  last_seen : Option PyStr
deriving DecidableEq

/-- A read `self.biomarkers[k]` on the `defaultdict`: if the key is absent the
default entry is created and inserted (this is the mutation the membership
guard in `get_biomarker_details` must avoid). -/
def ddAccess (s : Agg) (k : PyStr) : BioData × Agg :=
  match alistFind s k with
  | some v => (v, s)
  | none => (emptyBioData, alistSet s k emptyBioData)

/-- `BiomarkerAggregator.get_biomarker_details`, with the state threaded
explicitly so that any `defaultdict` mutation would be visible: the name is
normalized, a membership test guards the lookup, and the entry is serialised.
Returns the Python return value and the aggregator state afterwards. -/
def get_biomarker_details (s : Agg) (biomarker_name : PyStr) :
    Option BiomarkerDetails × Agg :=
  let normalized := normalize_biomarker_name biomarker_name
  match alistFind s normalized with
  | none => (none, s)
  | some _ =>
    let r := ddAccess s normalized
    let bio_data := r.1
    (some
      { normalized_name := bio_data.normalized_name,
        name_variants := bio_data.variants,
        total_mentions := bio_data.total_mentions,
        disease_associations :=
          bio_data.diseases.map
            (fun dv =>
              { disease := dv.1,
                paper_count := dv.2.papers.length,
                papers := dv.2.papers,
                association_types := dv.2.association_types,
                evidence_levels := dv.2.evidence_levels }),
        first_seen := bio_data.first_seen,
        last_seen := bio_data.last_seen }, r.2)

/-! ### `find_high_confidence_associations` -/

/-- One element of the `high_confidence` list. -/
structure HCAssoc where
  biomarker : PyStr
  disease : PyStr
  paper_count : Nat
  association_types : List PyStr
  evidence_levels : List PyStr
  confidence_score : ℚ
deriving DecidableEq

/-- The record appended for a qualifying (biomarker, disease) pair. -/
def mkHCAssoc (bio : BioData) (dv : PyStr × DiseaseData) : HCAssoc :=
  { biomarker := bio.normalized_name,
    disease := dv.1,
    paper_count := dv.2.papers.length,
    association_types := dv.2.association_types,
    evidence_levels := dv.2.evidence_levels,
    confidence_score := min ((dv.2.papers.length : ℚ) / 10) 1 }

/-- The double loop of `find_high_confidence_associations` before sorting:
every (biomarker, disease) pair whose paper set has at least `min_papers`
elements is appended. -/
def collectHighConfidence (s : Agg) (min_papers : Nat) : List HCAssoc :=
  s.foldl
    (fun acc kv =>
      kv.2.diseases.foldl
        (fun acc2 dv =>
          if min_papers ≤ dv.2.papers.length then acc2 ++ [mkHCAssoc kv.2 dv]
          else acc2)
        acc)
    []

/-- Descending-by-`paper_count` ordering used by
`high_confidence.sort(key=lambda x: x['paper_count'], reverse=True)`. -/
def hcGE (a b : HCAssoc) : Prop := b.paper_count ≤ a.paper_count

instance : DecidableRel hcGE := fun a b => Nat.decLe b.paper_count a.paper_count

instance : IsTotal HCAssoc hcGE := ⟨fun a b => le_total b.paper_count a.paper_count⟩

instance : IsTrans HCAssoc hcGE := ⟨fun _ _ _ h1 h2 => le_trans h2 h1⟩

/-- `BiomarkerAggregator.find_high_confidence_associations`. -/
def find_high_confidence_associations (s : Agg) (min_papers : Nat) :
    List HCAssoc :=
  List.insertionSort hcGE (collectHighConfidence s min_papers)

/-! ### Observers used by the claims about `add_paper_results` -/

/-- The paper set stored for the (entity `k`, condition `d`) pair (empty when
the pair has no entry). -/
def papersOf (s : Agg) (k d : PyStr) : List PyStr :=
  match alistFind s k with
  | none => []
  | some bio =>
    match alistFind bio.diseases d with
    | none => []
    | some dd => dd.papers

/-- The `total_mentions` counter of entity `k` (0 when absent). -/
def total_mentions_of (s : Agg) (k : PyStr) : Nat :=
  ((alistFind s k).map BioData.total_mentions).getD 0

/-! ### Retry behaviour of `process_single_paper` (`process_papers.py`,
`summarize.py`) -/

/-- What happens during one invocation of `process_single_paper`: the PDF
extraction can fail (returned as a dict), saving the extracted text can raise
a local `OSError` (which escapes the function), and inside
`summarize_paper_claude` the remote API call can raise (caught by
`except Exception` and returned as an `api_error` dict) or produce unparseable
output (caught as `json.JSONDecodeError` and returned as a `json_error`
dict). -/
inductive AttemptEvent where
  | extractionFailed (err : PyStr)
  | localIOError (err : PyStr)
  | apiRaise (err : PyStr)
  | jsonBad (err raw : PyStr)
  | apiOk (summary : PyStr)
deriving DecidableEq

/-- The dict returned by one (non-raising) invocation. -/
inductive TaskOutcome where
  | success (summary : PyStr)
  | extraction_failed (err : PyStr)
  | json_error (err raw : PyStr)
  | api_error (err : PyStr)
deriving DecidableEq

/-- The body of `process_single_paper` for a given attempt event, composed
with `summarize_paper_claude`'s `try/except` blocks.  `.error` means an
exception escapes the function (only the local I/O error does: API and JSON
failures are caught inside `summarize_paper_claude` and returned as dicts,
and a failed extraction is returned as a dict as well). -/
def process_single_paper_once (ev : AttemptEvent) :
    Except PyStr TaskOutcome :=
  match ev with
  | .extractionFailed e => .ok (.extraction_failed e)
  | .localIOError e => .error e
  | .apiRaise e => .ok (.api_error e)
  | .jsonBad e raw => .ok (.json_error e raw)
  | .apiOk smry => .ok (.success smry)

/-- Modelled from the spec: the `tenacity` retry loop configured by
`@retry(stop=stop_after_attempt(3), wait=wait_exponential(multiplier=1,
min=4, max=10))` (the library itself is not part of the repository).  The
wrapped function is re-invoked only when it raises; with no `retry=`
predicate every exception is retried; after `stop_after_attempt(3)` total
attempts the last exception is re-raised.  Returns the final outcome and the
number of attempts made.  `f n` is the event of attempt `n` (0-based). -/
def retryGo (f : Nat → Except PyStr TaskOutcome) (i : Nat) :
    Nat → Except PyStr TaskOutcome × Nat
  | 0 => (f i, i + 1)
  | rem + 1 =>
    match f i with
    | .ok r => (.ok r, i + 1)
    | .error e => if rem = 0 then (.error e, i + 1) else retryGo f (i + 1) rem

/-- `process_single_paper` as called by the pipeline: the tenacity-wrapped
body with at most 3 total attempts. -/
def process_single_paper_with_retry (f : Nat → AttemptEvent) :
    Except PyStr TaskOutcome × Nat :=
  retryGo (fun n => process_single_paper_once (f n)) 0 3

/-- Modelled from the spec: `tenacity.wait_exponential(multiplier=1, min=4,
max=10)` — the sleep before retry number `n` is `1 * 2^n` seconds clamped to
the interval `[4, 10]` (the library itself is not part of the repository). -/
def wait_exponential_1_4_10 (n : Nat) : Nat :=
  max 4 (min (2 ^ n) 10)

/-! ### Quality validation (`langchain_pipeline.py`) -/

/-- A Python/JSON value as far as `_validate_extraction` can observe it. -/
inductive JVal where
  | null
  | str (x : PyStr)
  | int (n : Int)
  | bool (x : Bool)
  | list (xs : List JVal)

/-- A dict record handed to `_validate_extraction`. -/
abbrev Record := List (PyStr × JVal)

/-- `result.get(k, dflt)`. -/
def dictGet (r : Record) (k : PyStr) (dflt : JVal) : JVal :=
  (alistFind r k).getD dflt

/-- Python truthiness of a value. -/
def truthy (v : JVal) : Bool :=
  match v with
  | .null => false
  | .str x => decide (x ≠ [])
  | .int n => decide (n ≠ 0)
  | .bool x => x
  | .list xs => !xs.isEmpty

/-- Whether a value is a string. -/
def isStrVal (v : JVal) : Bool :=
  match v with
  | .str _ => true
  | _ => false

/-- Whether `len(v)` is defined (strings and lists). -/
def isSized (v : JVal) : Bool :=
  match v with
  | .str _ => true
  | .list _ => true
  | _ => false

/-- Python `len(v)`: defined for sized values (strings and lists), raises
`TypeError` otherwise. -/
def pyLen (v : JVal) : Except Unit Nat :=
  match v with
  | .str x => .ok x.length
  | .list xs => .ok xs.length
  | _ => .error ()

/-- Python `v == s` for a string literal `s`: only a string compares equal. -/
def pyEqStr (v : JVal) (t : PyStr) : Bool :=
  match v with
  | .str x => x = t
  | _ => false

/-- Python whitespace stripped by `int(str)` (ASCII fragment). -/
def isPySpaceChar (c : Char) : Bool :=
  c.toNat = 32 || c.toNat = 9 || c.toNat = 10 || c.toNat = 13 ||
  c.toNat = 11 || c.toNat = 12

/-- Digit run accepted by `int(str)` after the sign: digits with single
underscores allowed between digits. -/
def digitsCore : PyStr → Nat → Option Nat
  | [], acc => some acc
  | '_' :: c :: rest, acc =>
    if c.isDigit then digitsCore rest (acc * 10 + (c.toNat - 48)) else none
  | ['_'], _ => none
  | c :: rest, acc =>
    if c.isDigit then digitsCore rest (acc * 10 + (c.toNat - 48)) else none

/-- Nonempty digit run (first character must be a digit). -/
def digitsTop (x : PyStr) : Option Nat :=
  match x with
  | [] => none
  | c :: rest =>
    if c.isDigit then digitsCore rest (c.toNat - 48) else none

/-- Python `int(str)`: strip whitespace, optional sign, digit run. -/
def parseIntStr (x : PyStr) : Option Int :=
  let t := ((x.dropWhile (fun c => isPySpaceChar c)).reverse.dropWhile
    (fun c => isPySpaceChar c)).reverse
  match t with
  | '+' :: rest => (digitsTop rest).map Int.ofNat
  | '-' :: rest => (digitsTop rest).map (fun n => -(n : Int))
  | rest => (digitsTop rest).map Int.ofNat

/-- Python `int(v)` as used by `_validate_year`: ints pass through, booleans
coerce, strings parse (`ValueError` on failure), `None` and lists raise
`TypeError`.  Both error kinds are caught by `_validate_year`. -/
def pyInt (v : JVal) : Except Unit Int :=
  match v with
  | .int n => .ok n
  | .bool x => .ok (if x then 1 else 0)
  | .str x =>
    match parseIntStr x with
    | some n => .ok n
    | none => .error ()
  | .null => .error ()
  | .list _ => .error ()

/-- The string literal `'Not found'`. -/
def notFoundLit : PyStr := "Not found".toList

/-- `LangChainPaperProcessor._validate_year`:
falsy or `'Not found'` fails, otherwise `int(year_str)` is computed with
`ValueError`/`TypeError` caught, and the year must lie in `[1900, 2026]`. -/
def validate_year (year_str : JVal) : Bool :=
  if ¬ truthy year_str then false
  else if pyEqStr year_str notFoundLit then false
  else
    match pyInt year_str with
    | .ok y => decide (1900 ≤ y ∧ y ≤ 2026)
    | .error _ => false

/-- `has_title`: `bool(result.get('title') and result['title'] != 'Not found'
and len(result['title']) > 5)`; `len` can raise `TypeError`. -/
def check_has_title (r : Record) : Except Unit Bool :=
  let t := dictGet r ("title".toList) .null
  if ¬ truthy t then .ok false
  else if pyEqStr t notFoundLit then .ok false
  else do
    let n ← pyLen t
    .ok (decide (5 < n))

/-- `has_authors`: `bool(result.get('authors') and result['authors'] !=
'Not found')`; never raises. -/
def check_has_authors (r : Record) : Bool :=
  let a := dictGet r ("authors".toList) .null
  if ¬ truthy a then false
  else ¬ pyEqStr a notFoundLit

/-- `has_findings`: `bool(result.get('key_findings') and
len(result.get('key_findings', [])) > 0)`. -/
def check_has_findings (r : Record) : Except Unit Bool :=
  let f := dictGet r ("key_findings".toList) .null
  if ¬ truthy f then .ok false
  else do
    let n ← pyLen (dictGet r ("key_findings".toList) (.list []))
    .ok (decide (0 < n))

/-- `sufficient_abstract`: `len(result.get('abstract', '')) > 50`; applied
without a truthiness guard, so a present unsized value raises `TypeError`. -/
def check_sufficient_abstract (r : Record) : Except Unit Bool := do
  let n ← pyLen (dictGet r ("abstract".toList) (.str []))
  .ok (decide (50 < n))

/-- `has_methodology`: like `has_title` with bound 20. -/
def check_has_methodology (r : Record) : Except Unit Bool :=
  let m := dictGet r ("methodology".toList) .null
  if ¬ truthy m then .ok false
  else if pyEqStr m notFoundLit then .ok false
  else do
    let n ← pyLen m
    .ok (decide (20 < n))

/-- `has_biomarkers`: `len(result.get('biomarkers', [])) > 0`; applied without
a truthiness guard. -/
def check_has_biomarkers (r : Record) : Except Unit Bool := do
  let n ← pyLen (dictGet r ("biomarkers".toList) (.list []))
  .ok (decide (0 < n))

/-- The validator's output: the `quality_checks` dict and the
`quality_score` it stores into the result (score modelled in `ℚ`). -/
structure ValidationOut where
  quality_checks : List (PyStr × Bool)
  quality_score : ℚ
deriving DecidableEq

/-- `LangChainPaperProcessor._validate_extraction`: the seven checks are
evaluated in dict-literal order (the first `TypeError` propagates), and
`score = (number of passed checks) / (number of checks)`. -/
def validate_extraction (r : Record) : Except Unit ValidationOut := do
  let c1 ← check_has_title r
  let c2 := check_has_authors r
  let c3 ← check_has_findings r
  let c4 := validate_year (dictGet r ("year".toList) .null)
  let c5 ← check_sufficient_abstract r
  let c6 ← check_has_methodology r
  let c7 ← check_has_biomarkers r
  let checks : List (PyStr × Bool) :=
    [("has_title".toList, c1), ("has_authors".toList, c2),
     ("has_findings".toList, c3), ("has_year".toList, c4),
     ("sufficient_abstract".toList, c5), ("has_methodology".toList, c6),
     ("has_biomarkers".toList, c7)]
  .ok
    { quality_checks := checks,
      quality_score :=
        ((checks.filter (fun c => c.2)).length : ℚ) / checks.length }
/-! ### Basic lemmas about the normalization pipeline -/

theorem char_toUpper_toNat_of_lower (c : Char)
    (h : 97 ≤ c.toNat ∧ c.toNat ≤ 122) :
    (Char.toUpper c).toNat = c.toNat - 32 := by
  have hv : (c.toNat - 32).isValidChar := by left; omega
  simp only [Char.toUpper, ge_iff_le]
  rw [if_pos ⟨h.1, h.2⟩, Char.ofNat, dif_pos hv]
  rfl

theorem char_toUpper_idem (c : Char) :
    Char.toUpper (Char.toUpper c) = Char.toUpper c := by
  by_cases h : 97 ≤ c.toNat ∧ c.toNat ≤ 122
  · have ht := char_toUpper_toNat_of_lower c h
    conv_lhs => rw [Char.toUpper]
    rw [if_neg]
    rw [ht]; omega
  · have : Char.toUpper c = c := by
      simp only [Char.toUpper, ge_iff_le]
      rw [if_neg]; omega
    rw [this, this]

theorem isSeparatorChar_toUpper (c : Char) :
    isSeparatorChar (Char.toUpper c) = isSeparatorChar c := by
  by_cases h : 97 ≤ c.toNat ∧ c.toNat ≤ 122
  · have ht := char_toUpper_toNat_of_lower c h
    have hL : isSeparatorChar (Char.toUpper c) = false := by
      simp only [isSeparatorChar, ht, Bool.or_eq_false_iff,
        decide_eq_false_iff_not]
      omega
    have hR : isSeparatorChar c = false := by
      simp only [isSeparatorChar, Bool.or_eq_false_iff,
        decide_eq_false_iff_not]
      omega
    rw [hL, hR]
  · have : Char.toUpper c = c := by
      simp only [Char.toUpper, ge_iff_le]
      rw [if_neg]; omega
    rw [this]

theorem mem_dropTypeTag {c : Char} {s : PyStr} (h : c ∈ dropTypeTag s) :
    c ∈ s := by
  unfold dropTypeTag at h
  split at h
  · exact (List.drop_sublist 5 s).mem h
  · split at h
    · exact (List.drop_sublist 8 s).mem h
    · split at h
      · exact (List.drop_sublist 10 s).mem h
      · exact h

theorem not_separator_of_mem_normalize {c : Char} {name : PyStr}
    (h : c ∈ normalize_biomarker_name name) : isSeparatorChar c = false := by
  unfold normalize_biomarker_name at h
  split at h
  · simp at h
  · have h1 : c ∈ pyUpper (name.filter (fun c => ¬ isSeparatorChar c)) :=
      mem_dropTypeTag h
    unfold pyUpper at h1
    obtain ⟨d, hd, rfl⟩ := List.mem_map.mp h1
    have := List.of_mem_filter hd
    rw [isSeparatorChar_toUpper]
    simpa using this

theorem toUpper_fixed_of_mem_normalize {c : Char} {name : PyStr}
    (h : c ∈ normalize_biomarker_name name) : Char.toUpper c = c := by
  unfold normalize_biomarker_name at h
  split at h
  · simp at h
  · have h1 : c ∈ pyUpper (name.filter (fun c => ¬ isSeparatorChar c)) :=
      mem_dropTypeTag h
    unfold pyUpper at h1
    obtain ⟨d, _, rfl⟩ := List.mem_map.mp h1
    exact char_toUpper_idem d

/-- On a string without separator characters whose characters are all fixed
by upper-casing, the first two stages of normalization are the identity. -/
theorem normalize_eq_dropTypeTag_self {s : PyStr}
    (hsep : ∀ c ∈ s, isSeparatorChar c = false)
    (hup : ∀ c ∈ s, Char.toUpper c = c) (hne : s ≠ []) :
    normalize_biomarker_name s = dropTypeTag s := by
  unfold normalize_biomarker_name
  rw [if_neg hne]
  have h1 : s.filter (fun c => ¬ isSeparatorChar c) = s := by
    rw [List.filter_eq_self]
    intro a ha
    simp [hsep a ha]
  rw [h1]
  have h2 : pyUpper s = s := by
    unfold pyUpper
    rw [List.map_congr_left hup]
    simp
  rw [h2]

/-! ### Lemmas about association lists and set-lists -/

theorem alistFind_alistSet_self {α : Type} (m : List (PyStr × α)) (k : PyStr)
    (v : α) : alistFind (alistSet m k v) k = some v := by
  induction m with
  | nil => simp [alistFind, alistSet]
  | cons hd tl ih =>
    obtain ⟨k₂, v₂⟩ := hd
    unfold alistSet
    by_cases h : k₂ = k
    · simp [h, alistFind]
    · simp only [if_neg h]
      unfold alistFind
      simp [h, ih]

theorem alistFind_alistSet_ne {α : Type} (m : List (PyStr × α))
    (k k₂ : PyStr) (v : α) (h : k ≠ k₂) :
    alistFind (alistSet m k v) k₂ = alistFind m k₂ := by
  induction m with
  | nil => simp [alistFind, alistSet, h]
  | cons hd tl ih =>
    obtain ⟨k₃, v₃⟩ := hd
    unfold alistSet
    by_cases h3 : k₃ = k
    · subst h3
      simp [alistFind, h]
    · simp only [if_neg h3]
      unfold alistFind
      by_cases h4 : k₃ = k₂ <;> simp [h4, ih]

theorem setAdd_mem (xs : List PyStr) (x : PyStr) : x ∈ setAdd xs x := by
  unfold setAdd
  by_cases h : x ∈ xs <;> simp [h]

theorem setAdd_of_mem {xs : List PyStr} {x : PyStr} (h : x ∈ xs) :
    setAdd xs x = xs := by
  simp [setAdd, h]

theorem setAdd_idem (xs : List PyStr) (x : PyStr) :
    setAdd (setAdd xs x) x = setAdd xs x :=
  setAdd_of_mem (setAdd_mem xs x)

/-! ## Claim theorems -/

/-! ### C1 — empty canonical keys -/

/-- A paper whose only biomarker is named `---` (separators only): the raw
name is truthy, but normalizes to the empty string. -/
def c1Paper : PaperResult :=
  { filename := some ("p1".toList), title := none,
    biomarkers := some
      [.dict
        { name := some ("---".toList), diseases := some [],
          association_type := none, evidence_level := none }] }

/-- C1 is false as stated: a biomarker entry whose raw name `---` normalizes
to the empty string is *not* rejected — `add_paper_results` creates an entry
of the index under the empty canonical key. -/
theorem C1_counterexample :
    normalize_biomarker_name ("---".toList) = [] ∧
    alistFind (add_paper_results ("t0".toList) [] c1Paper) [] ≠ none := by
  decide

/-- C1 (amended): only an association whose *raw* name is empty (or missing)
is rejected and creates no entry; an association whose raw name is nonempty
but normalizes to the empty string is not rejected and creates/updates an
index entry under the empty canonical key. -/
theorem C1_amended :
    (∀ timestamp filename s b, b.name.getD [] = [] →
      addBiomarker timestamp filename s (.dict b) = s) ∧
    (∀ timestamp filename s b, b.name.getD [] ≠ [] →
      normalize_biomarker_name (b.name.getD []) = [] →
      alistFind (addBiomarker timestamp filename s (.dict b)) [] ≠ none) := by
  constructor
  · intro timestamp filename s b h
    unfold addBiomarker
    simp [h]
  · intro timestamp filename s b h1 h2
    unfold addBiomarker
    simp only [if_neg h1, h2]
    rw [alistFind_alistSet_self]
    simp

/-- Witness for C1 (amended), at concrete inputs. -/
theorem C1_amended_witness :
    (addBiomarker ("t0".toList) ("p1".toList) []
      (.dict { name := some [], diseases := some [],
               association_type := none, evidence_level := none }) = []) ∧
    alistFind
      (addBiomarker ("t0".toList) ("p1".toList) []
        (.dict { name := some ("---".toList), diseases := some [],
                 association_type := none, evidence_level := none })) []
      ≠ none :=
  ⟨C1_amended.1 _ _ _ _ (by decide),
   C1_amended.2 _ _ _ _ (by decide) (by decide)⟩

/-! ### C2 — idempotence of normalization -/

/-- C2 is false as stated: normalization is not idempotent, because stripping
one type tag can expose another.  `gene:protein:brca1` normalizes to
`PROTEIN:BRCA1`, which normalizes further to `BRCA1`. -/
theorem C2_counterexample :
    normalize_biomarker_name
        (normalize_biomarker_name ("gene:protein:brca1".toList)) ≠
      normalize_biomarker_name ("gene:protein:brca1".toList) := by
  decide

/-- C2 (amended): the concrete identifications
`normalize("BRCA1") = normalize("BRCA-1") = normalize("brca1") = "BRCA1"`
hold, and normalization is idempotent on every input whose normalized form
does not itself start with one of the type tags `GENE:`, `PROTEIN:`,
`BIOMARKER:` (idempotence fails in general, as stripping one tag can expose
another). -/
theorem C2_amended :
    (normalize_biomarker_name ("BRCA1".toList) = "BRCA1".toList ∧
     normalize_biomarker_name ("BRCA-1".toList) = "BRCA1".toList ∧
     normalize_biomarker_name ("brca1".toList) = "BRCA1".toList) ∧
    ∀ name,
      ("GENE:".toList).isPrefixOf (normalize_biomarker_name name) = false →
      ("PROTEIN:".toList).isPrefixOf (normalize_biomarker_name name) = false →
      ("BIOMARKER:".toList).isPrefixOf (normalize_biomarker_name name) =
        false →
      normalize_biomarker_name (normalize_biomarker_name name) =
        normalize_biomarker_name name := by
  refine ⟨⟨by decide, by decide, by decide⟩, ?_⟩
  intro name h1 h2 h3
  by_cases hy : normalize_biomarker_name name = []
  · rw [hy]; rfl
  · have hsep : ∀ c ∈ normalize_biomarker_name name,
        isSeparatorChar c = false :=
      fun c hc => not_separator_of_mem_normalize hc
    have hup : ∀ c ∈ normalize_biomarker_name name, Char.toUpper c = c :=
      fun c hc => toUpper_fixed_of_mem_normalize hc
    rw [normalize_eq_dropTypeTag_self hsep hup hy]
    unfold dropTypeTag
    rw [if_neg (fun hh => by rw [h1] at hh; cases hh),
      if_neg (fun hh => by rw [h2] at hh; cases hh),
      if_neg (fun hh => by rw [h3] at hh; cases hh)]

/-- Witness for C2 (amended), at the concrete input `ABC`. -/
theorem C2_amended_witness :
    ("GENE:".toList).isPrefixOf
        (normalize_biomarker_name ("ABC".toList)) = false ∧
    normalize_biomarker_name (normalize_biomarker_name ("ABC".toList)) =
      normalize_biomarker_name ("ABC".toList) :=
  ⟨by decide, C2_amended.2 _ (by decide) (by decide) (by decide)⟩

/-! ### C9 — `get_biomarker_details` never mutates the index -/

/-- C9: for every aggregator state and raw name, `get_biomarker_details`
returns the state unchanged (the membership guard prevents the `defaultdict`
from creating an entry), and returns `None` when the normalized name has no
entry. -/
theorem C9_details_pure (s : Agg) (name : PyStr) :
    (get_biomarker_details s name).2 = s ∧
    (alistFind s (normalize_biomarker_name name) = none →
      (get_biomarker_details s name).1 = none) := by
  unfold get_biomarker_details
  cases h : alistFind s (normalize_biomarker_name name) with
  | none =>
    simp only [h]
    exact ⟨trivial, fun _ => trivial⟩
  | some bio =>
    simp only [h, ddAccess]
    refine ⟨trivial, ?_⟩
    intro hc
    cases hc

/-- Witness for C9 at a concrete state and name. -/
theorem C9_details_pure_witness :
    alistFind ([] : Agg) (normalize_biomarker_name ("X".toList)) = none ∧
    (get_biomarker_details [] ("X".toList)).1 = none ∧
    (get_biomarker_details [] ("X".toList)).2 = [] :=
  ⟨by decide, (C9_details_pure [] ("X".toList)).2 (by decide),
   (C9_details_pure [] ("X".toList)).1⟩

/-! ### C10 — missing `filename` key -/

/-- A paper with no `filename` key whose single biomarker `bmName` is
associated with the condition `cancer`. -/
def c10Paper (bmName : PyStr) : PaperResult :=
  { filename := none, title := none,
    biomarkers := some
      [.dict
        { name := some bmName, diseases := some [("cancer".toList)],
          association_type := none, evidence_level := none }] }

/-- C10: a paper result lacking a `filename` key is recorded under the
literal document identifier `unknown` — ingesting it is indistinguishable
from ingesting the same paper with `filename = "unknown"` — and therefore
all such records count as one distinct contributing document: ingesting two
filename-less papers touching the same (entity, condition) pair leaves a
paper set containing exactly the single document `unknown`. -/
theorem C10_unknown_filename :
    (∀ timestamp s p, p.filename = none →
      add_paper_results timestamp s p =
        add_paper_results timestamp s
          { p with filename := some ("unknown".toList) }) ∧
    papersOf
        (add_paper_results ("t2".toList)
          (add_paper_results ("t1".toList) [] (c10Paper ("A".toList)))
          (c10Paper ("A".toList)))
        ("A".toList) ("cancer".toList) =
      [("unknown".toList)] := by
  constructor
  · intro timestamp s p h
    unfold add_paper_results
    rw [h]
    simp
  · decide

/-- Witness for C10 at a concrete paper. -/
theorem C10_unknown_filename_witness :
    (c10Paper ("A".toList)).filename = none ∧
    add_paper_results ("t1".toList) [] (c10Paper ("A".toList)) =
      add_paper_results ("t1".toList) []
        { c10Paper ("A".toList) with filename := some ("unknown".toList) } :=
  ⟨by decide, C10_unknown_filename.1 _ _ _ (by decide)⟩

/-! ### C4 — `find_high_confidence_associations` -/

theorem foldl_append_of_step {α γ : Type} (step : List γ → α → List γ)
    (f : α → List γ) (hstep : ∀ acc x, step acc x = acc ++ f x) :
    ∀ (L : List α) (init : List γ),
      L.foldl step init = init ++ L.flatMap f := by
  intro L
  induction L with
  | nil => intro init; simp
  | cons hd tl ih =>
    intro init
    simp only [List.foldl_cons, List.flatMap_cons, hstep]
    rw [ih]
    simp

theorem inner_hc_fold (min_papers : Nat) (bio : BioData) :
    ∀ (L : List (PyStr × DiseaseData)) (init : List HCAssoc),
      L.foldl
          (fun acc2 dv =>
            if min_papers ≤ dv.2.papers.length then acc2 ++ [mkHCAssoc bio dv]
            else acc2)
          init =
        init ++
          L.filterMap
            (fun dv =>
              if min_papers ≤ dv.2.papers.length then some (mkHCAssoc bio dv)
              else none) := by
  intro L
  induction L with
  | nil => intro init; simp
  | cons hd tl ih =>
    intro init
    by_cases h : min_papers ≤ hd.2.papers.length
    · simp only [List.foldl_cons, List.filterMap_cons, if_pos h]
      rw [ih]
      simp
    · simp only [List.foldl_cons, List.filterMap_cons, if_neg h]
      rw [ih]

theorem collectHighConfidence_eq_flatMap (s : Agg) (min_papers : Nat) :
    collectHighConfidence s min_papers =
      s.flatMap
        (fun kv =>
          kv.2.diseases.filterMap
            (fun dv =>
              if min_papers ≤ dv.2.papers.length then
                some (mkHCAssoc kv.2 dv)
              else none)) := by
  unfold collectHighConfidence
  rw [foldl_append_of_step
      (fun acc kv =>
        kv.2.diseases.foldl
          (fun acc2 dv =>
            if min_papers ≤ dv.2.papers.length then acc2 ++ [mkHCAssoc kv.2 dv]
            else acc2)
          acc)
      (fun kv =>
        kv.2.diseases.filterMap
          (fun dv =>
            if min_papers ≤ dv.2.papers.length then some (mkHCAssoc kv.2 dv)
            else none))
      (fun acc kv => inner_hc_fold min_papers kv.2 kv.2.diseases acc) s []]
  simp

theorem mem_collectHighConfidence {s : Agg} {min_papers : Nat} {a : HCAssoc} :
    a ∈ collectHighConfidence s min_papers ↔
      ∃ kv ∈ s, ∃ dv ∈ kv.2.diseases,
        min_papers ≤ dv.2.papers.length ∧ a = mkHCAssoc kv.2 dv := by
  rw [collectHighConfidence_eq_flatMap]
  simp only [List.mem_flatMap, List.mem_filterMap]
  constructor
  · rintro ⟨kv, hkv, dv, hdv, hopt⟩
    by_cases h : min_papers ≤ dv.2.papers.length
    · rw [if_pos h] at hopt
      exact ⟨kv, hkv, dv, hdv, h, (Option.some_inj.mp hopt).symm⟩
    · rw [if_neg h] at hopt
      cases hopt
  · rintro ⟨kv, hkv, dv, hdv, h, rfl⟩
    exact ⟨kv, hkv, dv, hdv, by rw [if_pos h]⟩

/-- C4: `find_high_confidence_associations` returns exactly the
(entity, condition) pairs whose distinct-contributing-document count (the
size of the pair's paper set) is at least `min_papers`, sorted descending by
that count, with `confidence = min(count / 10, 1)`; in particular a pair
with exactly 5 documents has confidence 1/2 and one with 12 documents has
confidence 1. -/
theorem C4_high_confidence (s : Agg) (min_papers : Nat) :
    List.Pairwise hcGE (find_high_confidence_associations s min_papers) ∧
    (∀ a, a ∈ find_high_confidence_associations s min_papers ↔
      ∃ kv ∈ s, ∃ dv ∈ kv.2.diseases,
        min_papers ≤ dv.2.papers.length ∧ a = mkHCAssoc kv.2 dv) ∧
    (∀ a ∈ find_high_confidence_associations s min_papers,
      min_papers ≤ a.paper_count ∧
      a.confidence_score = min ((a.paper_count : ℚ) / 10) 1) ∧
    (∀ a ∈ find_high_confidence_associations s min_papers,
      (a.paper_count = 5 → a.confidence_score = 1/2) ∧
      (a.paper_count = 12 → a.confidence_score = 1)) := by
  have hmem : ∀ a, a ∈ find_high_confidence_associations s min_papers ↔
      ∃ kv ∈ s, ∃ dv ∈ kv.2.diseases,
        min_papers ≤ dv.2.papers.length ∧ a = mkHCAssoc kv.2 dv := by
    intro a
    rw [← mem_collectHighConfidence]
    unfold find_high_confidence_associations
    exact (List.perm_insertionSort hcGE _).mem_iff
  have hform : ∀ a ∈ find_high_confidence_associations s min_papers,
      min_papers ≤ a.paper_count ∧
      a.confidence_score = min ((a.paper_count : ℚ) / 10) 1 := by
    intro a ha
    obtain ⟨kv, _, dv, _, hm, rfl⟩ := (hmem a).mp ha
    exact ⟨hm, rfl⟩
  refine ⟨List.sorted_insertionSort hcGE _, hmem, hform, ?_⟩
  intro a ha
  obtain ⟨_, hc⟩ := hform a ha
  constructor
  · intro h5
    rw [hc, h5]
    norm_num
  · intro h12
    rw [hc, h12]
    norm_num

/-- Concrete paper set of five documents for the C4 witness. -/
def c4DD : DiseaseData :=
  { papers := [("p1".toList), ("p2".toList), ("p3".toList), ("p4".toList),
      ("p5".toList)],
    association_types := [("causal".toList)],
    evidence_levels := [("clinical_trial".toList)] }

/-- Concrete biomarker entry for the C4 witness. -/
def c4Bio : BioData :=
  { normalized_name := "BRCA1".toList, variants := ["BRCA1".toList],
    diseases := [(("breast cancer".toList), c4DD)], total_mentions := 5,
    first_seen := none, last_seen := none }

/-- Concrete aggregator state for the C4 witness. -/
def c4Agg : Agg := [("BRCA1".toList, c4Bio)]

/-- The association the C4 witness exhibits. -/
def c4Assoc : HCAssoc := mkHCAssoc c4Bio (("breast cancer".toList), c4DD)

/-- Witness for C4 at a concrete aggregator: an association backed by exactly
5 distinct documents is returned (for `min_papers = 3`) with confidence
`1/2`. -/
theorem C4_high_confidence_witness :
    c4Assoc ∈ find_high_confidence_associations c4Agg 3 ∧
    3 ≤ c4Assoc.paper_count ∧ c4Assoc.confidence_score = 1/2 := by
  have hm : c4Assoc ∈ find_high_confidence_associations c4Agg 3 :=
    ((C4_high_confidence c4Agg 3).2.1 c4Assoc).mpr
      ⟨("BRCA1".toList, c4Bio), by decide,
       (("breast cancer".toList), c4DD), by decide, by decide, rfl⟩
  exact ⟨hm, ((C4_high_confidence c4Agg 3).2.2.1 c4Assoc hm).1,
    ((C4_high_confidence c4Agg 3).2.2.2 c4Assoc hm).1 (by decide)⟩

/-! ### C3 — ranking of `top_diseases` in `get_summary` -/

/-- Paper `p1` mentions biomarkers `A` and `B`, both associated with
condition `d1`. -/
def c3p1 : PaperResult :=
  { filename := some ("p1".toList), title := none,
    biomarkers := some
      [.dict
        { name := some ("A".toList), diseases := some [("d1".toList)],
          association_type := none, evidence_level := none },
       .dict
        { name := some ("B".toList), diseases := some [("d1".toList)],
          association_type := none, evidence_level := none }] }

/-- Paper `p2` mentions biomarker `C`, associated with condition `d2`. -/
def c3p2 : PaperResult :=
  { filename := some ("p2".toList), title := none,
    biomarkers := some
      [.dict
        { name := some ("C".toList), diseases := some [("d2".toList)],
          association_type := none, evidence_level := none }] }

/-- Paper `p3` mentions biomarker `C`, associated with condition `d2`. -/
def c3p3 : PaperResult :=
  { filename := some ("p3".toList), title := none,
    biomarkers := some
      [.dict
        { name := some ("C".toList), diseases := some [("d2".toList)],
          association_type := none, evidence_level := none }] }

/-- Aggregator state after ingesting `c3p1`, `c3p2`, `c3p3`. -/
def c3Agg : Agg :=
  add_paper_results ("t3".toList)
    (add_paper_results ("t2".toList)
      (add_paper_results ("t1".toList) [] c3p1) c3p2) c3p3

/-- C3 is false as stated: `top_diseases` is not ranked by the number of
*distinct* contributing documents.  Condition `d1` is backed by a single
distinct document (`p1`, reached through two biomarkers) while `d2` is backed
by two distinct documents, yet `d1` is listed first with the counter 2 (the
per-biomarker paper-set sizes are summed). -/
theorem C3_counterexample :
    (get_summary c3Agg).top_diseases =
      [(("d1".toList), 2), (("d2".toList), 2)] ∧
    specDistinctContributingDocs c3Agg ("d1".toList) = 1 ∧
    specDistinctContributingDocs c3Agg ("d2".toList) = 2 ∧
    ¬ List.Pairwise
        (fun a b => specDistinctContributingDocs c3Agg b.1 ≤
          specDistinctContributingDocs c3Agg a.1)
        (get_summary c3Agg).top_diseases := by
  decide

/-- C3 (amended): `top_diseases` has at most 10 entries and is ranked in
descending order of the *sum over biomarkers* of each biomarker's distinct
paper count for the condition (a document reaching a condition through
several entities is counted once per entity), with ties broken by first-seen
order: the truncation is a prefix of the full stable descending sort, which
is a permutation of the `all_diseases` accumulator in which equal-count
conditions keep their first-seen relative order. -/
theorem C3_amended (s : Agg) :
    (get_summary s).top_diseases = (topDiseasesSorted s).take 10 ∧
    (get_summary s).top_diseases.length ≤ 10 ∧
    List.Pairwise countGE (get_summary s).top_diseases ∧
    (topDiseasesSorted s).Perm (allDiseases s) ∧
    (∀ x y : PyStr × Nat, x.2 = y.2 → List.Sublist [x, y] (allDiseases s) →
      List.Sublist [x, y] (topDiseasesSorted s)) := by
  refine ⟨rfl, List.length_take_le 10 _, ?_,
    List.perm_insertionSort countGE _, ?_⟩
  · exact List.Pairwise.sublist (List.take_sublist 10 _)
      (List.sorted_insertionSort countGE _)
  · intro x y hxy hsub
    exact List.pair_sublist_insertionSort (le_of_eq hxy.symm) hsub

/-- Witness for C3 (amended): at the concrete state `c3Agg`, the two
equal-count conditions keep their first-seen order in the sorted list. -/
theorem C3_amended_witness :
    List.Sublist [(("d1".toList), 2), (("d2".toList), 2)]
      (topDiseasesSorted c3Agg) ∧
    (get_summary c3Agg).top_diseases.length ≤ 10 :=
  ⟨(C3_amended c3Agg).2.2.2.2 (("d1".toList), 2) (("d2".toList), 2) rfl
    (by decide),
   (C3_amended c3Agg).2.1⟩

/-! ### C8 — set semantics for documents, counter semantics for mentions -/

/-- The paper set stored in a disease map at key `d` (empty when absent). -/
def pAt (ds : List (PyStr × DiseaseData)) (d : PyStr) : List PyStr :=
  ((alistFind ds d).map DiseaseData.papers).getD []

theorem papersOf_eq_pAt (s : Agg) (k d : PyStr) :
    papersOf s k d = pAt ((alistFind s k).getD emptyBioData).diseases d := by
  unfold papersOf pAt
  cases alistFind s k with
  | none => simp [emptyBioData, alistFind]
  | some bio =>
    cases h : alistFind bio.diseases d with
    | none => simp [h]
    | some dd => simp [h]

theorem pAt_addDisease (fn a e : PyStr) (ds : List (PyStr × DiseaseData))
    (x d : PyStr) :
    pAt (addDisease fn a e ds x) d =
      if x ≠ [] ∧ pyLower x = d then setAdd (pAt ds d) fn else pAt ds d := by
  unfold addDisease
  by_cases hx : x = []
  · rw [if_pos hx, if_neg (fun hc => hc.1 hx)]
  · rw [if_neg hx]
    by_cases hd : pyLower x = d
    · rw [if_pos ⟨hx, hd⟩]
      subst hd
      unfold pAt
      rw [alistFind_alistSet_self]
      cases h : alistFind ds (pyLower x) with
      | none => simp [h, emptyDiseaseData]
      | some dd => simp [h]
    · rw [if_neg (fun hc => hd hc.2)]
      unfold pAt
      rw [alistFind_alistSet_ne _ _ _ _ hd]

theorem pAt_addDisease_foldl (fn a e : PyStr) :
    ∀ (L : List PyStr) (ds : List (PyStr × DiseaseData)) (d : PyStr),
      pAt (L.foldl (addDisease fn a e) ds) d =
        if ∃ x ∈ L, x ≠ [] ∧ pyLower x = d then setAdd (pAt ds d) fn
        else pAt ds d := by
  intro L
  induction L with
  | nil =>
    intro ds d
    simp
  | cons x L ih =>
    intro ds d
    simp only [List.foldl_cons]
    rw [ih, pAt_addDisease]
    by_cases hx : x ≠ [] ∧ pyLower x = d
    · rw [if_pos hx,
        if_pos (show ∃ y ∈ x :: L, y ≠ [] ∧ pyLower y = d from
          ⟨x, List.mem_cons_self x L, hx⟩)]
      by_cases hL : ∃ y ∈ L, y ≠ [] ∧ pyLower y = d
      · rw [if_pos hL, setAdd_idem]
      · rw [if_neg hL]
    · rw [if_neg hx]
      have hiff : (∃ y ∈ x :: L, y ≠ [] ∧ pyLower y = d) ↔
          (∃ y ∈ L, y ≠ [] ∧ pyLower y = d) := by
        constructor
        · rintro ⟨y, hy, hyp⟩
          rcases List.mem_cons.mp hy with rfl | hy2
          · exact absurd hyp hx
          · exact ⟨y, hy2, hyp⟩
        · rintro ⟨y, hy, hyp⟩
          exact ⟨y, List.mem_cons_of_mem x hy, hyp⟩
      by_cases hL : ∃ y ∈ L, y ≠ [] ∧ pyLower y = d
      · rw [if_pos hL, if_pos (hiff.mpr hL)]
      · rw [if_neg hL, if_neg (fun hc => hL (hiff.mp hc))]

theorem addBiomarker_mentions (ts fn : PyStr) (s : Agg) (b : Biomarker)
    (h : b.name.getD [] ≠ []) :
    total_mentions_of (addBiomarker ts fn s (.dict b))
        (normalize_biomarker_name (b.name.getD [])) =
      total_mentions_of s (normalize_biomarker_name (b.name.getD [])) + 1 := by
  simp only [addBiomarker]
  rw [if_neg h]
  unfold total_mentions_of
  rw [alistFind_alistSet_self]
  cases hf : alistFind s (normalize_biomarker_name (b.name.getD [])) with
  | none => simp [hf, emptyBioData]
  | some bio => simp [hf]

theorem addBiomarker_papersOf (ts fn : PyStr) (s : Agg) (b : Biomarker)
    (h : b.name.getD [] ≠ []) (key d : PyStr) :
    papersOf (addBiomarker ts fn s (.dict b)) key d =
      if key = normalize_biomarker_name (b.name.getD []) ∧
          (∃ x ∈ b.diseases.getD [], x ≠ [] ∧ pyLower x = d) then
        setAdd (papersOf s key d) fn
      else papersOf s key d := by
  simp only [addBiomarker]
  rw [if_neg h]
  by_cases hk : key = normalize_biomarker_name (b.name.getD [])
  · subst hk
    rw [papersOf_eq_pAt, alistFind_alistSet_self]
    simp only [Option.getD_some]
    rw [pAt_addDisease_foldl]
    rw [papersOf_eq_pAt s (normalize_biomarker_name (b.name.getD [])) d]
    by_cases hex : ∃ x ∈ b.diseases.getD [], x ≠ [] ∧ pyLower x = d
    · rw [if_pos hex, if_pos ⟨trivial, hex⟩]
    · rw [if_neg hex, if_neg (fun hc => hex hc.2)]
  · rw [papersOf_eq_pAt, alistFind_alistSet_ne _ _ _ _ (fun hc => hk hc.symm),
      ← papersOf_eq_pAt, if_neg (fun hc => hk hc.1)]

/-- C8: re-ingesting the exact same (entity, condition, document)
combination — the same biomarker dict with the same filename — leaves every
pair's contributing-document set (hence its count) unchanged, while each of
the two ingestions still increments the entity's `total_mentions` by one. -/
theorem C8_set_vs_counter (ts₁ ts₂ fn : PyStr) (s : Agg) (b : Biomarker)
    (h : b.name.getD [] ≠ []) :
    (∀ key d,
      papersOf
          (addBiomarker ts₂ fn (addBiomarker ts₁ fn s (.dict b)) (.dict b))
          key d =
        papersOf (addBiomarker ts₁ fn s (.dict b)) key d) ∧
    total_mentions_of
        (addBiomarker ts₂ fn (addBiomarker ts₁ fn s (.dict b)) (.dict b))
        (normalize_biomarker_name (b.name.getD [])) =
      total_mentions_of (addBiomarker ts₁ fn s (.dict b))
        (normalize_biomarker_name (b.name.getD [])) + 1 ∧
    total_mentions_of (addBiomarker ts₁ fn s (.dict b))
        (normalize_biomarker_name (b.name.getD [])) =
      total_mentions_of s (normalize_biomarker_name (b.name.getD [])) + 1 := by
  refine ⟨?_, addBiomarker_mentions ts₂ fn _ b h,
    addBiomarker_mentions ts₁ fn s b h⟩
  intro key d
  rw [addBiomarker_papersOf ts₂ fn _ b h key d,
    addBiomarker_papersOf ts₁ fn s b h key d]
  by_cases hc : key = normalize_biomarker_name (b.name.getD []) ∧
      ∃ x ∈ b.diseases.getD [], x ≠ [] ∧ pyLower x = d
  · rw [if_pos hc, if_pos hc, setAdd_idem]
  · rw [if_neg hc, if_neg hc]

/-- The biomarker dict used by the C8 witness. -/
def c8Bm : Biomarker :=
  { name := some ("BRCA1".toList),
    diseases := some [("breast cancer".toList)],
    association_type := some ("causal".toList),
    evidence_level := some ("clinical_trial".toList) }

/-- Witness for C8 at a concrete biomarker, filename and state. -/
theorem C8_set_vs_counter_witness :
    papersOf
        (addBiomarker ("t2".toList) ("p1".toList)
          (addBiomarker ("t1".toList) ("p1".toList) [] (.dict c8Bm))
          (.dict c8Bm))
        ("BRCA1".toList) ("breast cancer".toList) =
      papersOf (addBiomarker ("t1".toList) ("p1".toList) [] (.dict c8Bm))
        ("BRCA1".toList) ("breast cancer".toList) ∧
    total_mentions_of
        (addBiomarker ("t2".toList) ("p1".toList)
          (addBiomarker ("t1".toList) ("p1".toList) [] (.dict c8Bm))
          (.dict c8Bm))
        (normalize_biomarker_name (c8Bm.name.getD [])) =
      total_mentions_of
        (addBiomarker ("t1".toList) ("p1".toList) [] (.dict c8Bm))
        (normalize_biomarker_name (c8Bm.name.getD [])) + 1 :=
  ⟨(C8_set_vs_counter ("t1".toList) ("t2".toList) ("p1".toList) [] c8Bm
      (by decide)).1 ("BRCA1".toList) ("breast cancer".toList),
   (C8_set_vs_counter ("t1".toList) ("t2".toList) ("p1".toList) [] c8Bm
      (by decide)).2.1⟩

/-! ### C5 — retry policy of `process_single_paper` -/

deriving instance DecidableEq for Except

theorem retryGo_attempts_le (f : Nat → Except PyStr TaskOutcome) :
    ∀ (fuel i : Nat), 1 ≤ fuel → (retryGo f i fuel).2 ≤ i + fuel := by
  intro fuel
  induction fuel with
  | zero => intro i h; cases h
  | succ rem ih =>
    intro i _
    unfold retryGo
    cases f i with
    | ok r => simp
    | error e =>
      by_cases hr : rem = 0
      · simp [hr]
      · simp only [if_neg hr]
        have := ih (i + 1) (Nat.one_le_iff_ne_zero.mpr hr)
        omega

theorem retryGo_attempts_ge (f : Nat → Except PyStr TaskOutcome) :
    ∀ (fuel i : Nat), i + 1 ≤ (retryGo f i fuel).2 := by
  intro fuel
  induction fuel with
  | zero => intro i; simp [retryGo]
  | succ rem ih =>
    intro i
    unfold retryGo
    cases f i with
    | ok r => simp
    | error e =>
      by_cases hr : rem = 0
      · simp [hr]
      · simp only [if_neg hr]
        have := ih (i + 1)
        omega

/-- C5 is false as stated.  First conjunct: a remote-service failure on the
first attempt — retryable according to the claim — is *not* retried: it is
caught inside `summarize_paper_claude`, returned as an `api_error` failure
dict, and the retry wrapper (which only reacts to exceptions) stops after a
single attempt.  Second conjunct: a structural local I/O failure — not
retryable according to the claim — *is* retried: the `OSError` escapes and
tenacity re-invokes the body, which succeeds on the second attempt. -/
theorem C5_counterexample :
    process_single_paper_with_retry
        (fun n => if n = 0 then .apiRaise ("boom".toList)
          else .apiOk ("s".toList)) =
      (.ok (.api_error ("boom".toList)), 1) ∧
    process_single_paper_with_retry
        (fun n => if n = 0 then .localIOError ("disk".toList)
          else .apiOk ("s".toList)) =
      (.ok (.success ("s".toList)), 2) := by
  decide

/-- C5 (amended): each task makes at most 3 total attempts; the backoff
before every retry is clamped to the interval `[4, 10]` seconds; but the
retry predicate is exception-based, not classification-based: any invocation
whose first attempt does not raise (successful calls, failed extractions,
remote API errors and JSON parse errors, which are all caught and returned
as dicts) finishes after exactly one attempt with that dict, while an
invocation whose first attempt raises (e.g. a local I/O error while saving
the extracted text) is always retried. -/
theorem C5_amended :
    (∀ f : Nat → AttemptEvent,
      (process_single_paper_with_retry f).2 ≤ 3) ∧
    (∀ n, 4 ≤ wait_exponential_1_4_10 n ∧ wait_exponential_1_4_10 n ≤ 10) ∧
    (∀ f : Nat → AttemptEvent, (∀ e, f 0 ≠ .localIOError e) →
      process_single_paper_with_retry f =
        (process_single_paper_once (f 0), 1)) ∧
    (∀ (f : Nat → AttemptEvent) e, f 0 = .localIOError e →
      2 ≤ (process_single_paper_with_retry f).2) := by
  refine ⟨?_, ?_, ?_, ?_⟩
  · intro f
    exact retryGo_attempts_le _ 3 0 (by omega)
  · intro n
    unfold wait_exponential_1_4_10
    constructor
    · exact le_max_left 4 _
    · exact max_le (by omega) (min_le_right _ 10)
  · intro f h
    cases hf : f 0 with
    | extractionFailed e =>
      simp [process_single_paper_with_retry, retryGo,
        process_single_paper_once, hf]
    | localIOError e => exact absurd hf (h e)
    | apiRaise e =>
      simp [process_single_paper_with_retry, retryGo,
        process_single_paper_once, hf]
    | jsonBad e raw =>
      simp [process_single_paper_with_retry, retryGo,
        process_single_paper_once, hf]
    | apiOk smry =>
      simp [process_single_paper_with_retry, retryGo,
        process_single_paper_once, hf]
  · intro f e hf
    unfold process_single_paper_with_retry retryGo
    simp only [hf, process_single_paper_once]
    have := retryGo_attempts_ge
      (fun n => process_single_paper_once (f n)) 2 1
    simpa using this

/-- Witness for C5 (amended) at concrete attempt streams. -/
theorem C5_amended_witness :
    process_single_paper_with_retry (fun _ => .apiOk ("s".toList)) =
      (process_single_paper_once (.apiOk ("s".toList)), 1) ∧
    2 ≤ (process_single_paper_with_retry
      (fun _ => .localIOError ("x".toList))).2 :=
  ⟨C5_amended.2.2.1 _ (fun _ h => AttemptEvent.noConfusion h),
   C5_amended.2.2.2 _ ("x".toList) rfl⟩

/-! ### C6 — quality score formula -/

/-- C6: whenever validation completes, the checks dict has exactly the seven
named checks, the score equals (number of passed checks) / 7, the score lies
in `[0, 1]`, and a record passing exactly 5 checks scores `5/7`. -/
theorem C6_quality_score (r : Record) (out : ValidationOut)
    (h : validate_extraction r = .ok out) :
    out.quality_checks.length = 7 ∧
    out.quality_checks.map Prod.fst =
      [("has_title".toList), ("has_authors".toList),
       ("has_findings".toList), ("has_year".toList),
       ("sufficient_abstract".toList), ("has_methodology".toList),
       ("has_biomarkers".toList)] ∧
    out.quality_score =
      ((out.quality_checks.filter (fun c => c.2)).length : ℚ) / 7 ∧
    0 ≤ out.quality_score ∧ out.quality_score ≤ 1 ∧
    ((out.quality_checks.filter (fun c => c.2)).length = 5 →
      out.quality_score = 5 / 7) := by
  unfold validate_extraction at h
  cases h1 : check_has_title r with
  | error u => rw [h1] at h; cases h
  | ok c1 =>
  rw [h1] at h
  cases h3 : check_has_findings r with
  | error u => rw [h3] at h; cases h
  | ok c3 =>
  rw [h3] at h
  cases h5 : check_sufficient_abstract r with
  | error u => rw [h5] at h; cases h
  | ok c5 =>
  rw [h5] at h
  cases h6 : check_has_methodology r with
  | error u => rw [h6] at h; cases h
  | ok c6 =>
  rw [h6] at h
  cases h7 : check_has_biomarkers r with
  | error u => rw [h7] at h; cases h
  | ok c7 =>
  rw [h7] at h
  simp only [Except.bind, bind] at h
  cases h
  refine ⟨rfl, rfl, rfl, ?_, ?_, ?_⟩
  · positivity
  · rw [div_le_one (by norm_num)]
    have hlen := List.length_filter_le (fun c : PyStr × Bool => c.2)
      [("has_title".toList, c1), ("has_authors".toList, check_has_authors r),
       ("has_findings".toList, c3),
       ("has_year".toList, validate_year (dictGet r ("year".toList) .null)),
       ("sufficient_abstract".toList, c5), ("has_methodology".toList, c6),
       ("has_biomarkers".toList, c7)]
    simp only [List.length_cons, List.length_nil] at hlen
    exact_mod_cast hlen
  · intro h5len
    simp only [ValidationOut.mk.injEq]
    rw [h5len]
    norm_num

/-- A concrete extraction record that passes exactly 5 of the 7 checks
(title, authors, findings, year and abstract pass; methodology and
biomarkers are absent). -/
def c6Rec : Record :=
  [(("title".toList), .str ("A decent paper title".toList)),
   (("authors".toList), .str ("Smith J, Doe J".toList)),
   (("key_findings".toList), .list [.str ("finding one".toList)]),
   (("year".toList), .str ("1950".toList)),
   (("abstract".toList),
    .str ("This study examines the relationship between X and Y in much detail".toList))]

/-- The validator output on `c6Rec`. -/
def c6Out : ValidationOut :=
  { quality_checks :=
      [(("has_title".toList), true), (("has_authors".toList), true),
       (("has_findings".toList), true), (("has_year".toList), true),
       (("sufficient_abstract".toList), true),
       (("has_methodology".toList), false),
       (("has_biomarkers".toList), false)],
    quality_score := 5 / 7 }

/-- Witness for C6: on `c6Rec` validation completes with exactly 5 passed
checks and score `5/7`. -/
theorem C6_quality_score_witness :
    validate_extraction c6Rec = .ok c6Out ∧ c6Out.quality_score = 5 / 7 := by
  have hch : check_has_title c6Rec = .ok true := by decide
  have hcf : check_has_findings c6Rec = .ok true := by decide
  have hcab : check_sufficient_abstract c6Rec = .ok true := by decide
  have hcm : check_has_methodology c6Rec = .ok false := by decide
  have hcb : check_has_biomarkers c6Rec = .ok false := by decide
  have hca : check_has_authors c6Rec = true := by decide
  have hcy : validate_year (dictGet c6Rec ("year".toList) .null) = true := by
    decide
  have h : validate_extraction c6Rec = .ok c6Out := by
    unfold validate_extraction
    rw [hch, hcf, hcab, hcm, hcb]
    simp only [Except.bind, bind, hca, hcy]
    simp only [c6Out, Except.ok.injEq, ValidationOut.mk.injEq]
    refine ⟨by decide, ?_⟩
    norm_num
  exact ⟨h, (C6_quality_score c6Rec c6Out h).2.2.2.2.2 (by decide)⟩

/-! ### C7 — validator behaviour on malformed input -/

/-- C7 is false as stated: on a record whose `abstract` field is present but
null, `len(result.get('abstract', ''))` raises `TypeError` — validation does
not complete, no score is produced. -/
theorem C7_counterexample :
    validate_extraction [(("abstract".toList), JVal.null)] = .error () := by
  decide

theorem pyLen_ok_of_isSized {v : JVal} (h : isSized v = true) :
    ∃ n, pyLen v = .ok n := by
  cases v with
  | str x => exact ⟨x.length, rfl⟩
  | list xs => exact ⟨xs.length, rfl⟩
  | null => cases h
  | int n => cases h
  | bool x => cases h

theorem check_has_title_ok (r : Record)
    (ht : truthy (dictGet r ("title".toList) .null) = true →
      isSized (dictGet r ("title".toList) .null) = true) :
    ∃ c, check_has_title r = .ok c := by
  unfold check_has_title
  by_cases h1 : truthy (dictGet r ("title".toList) .null) = true
  · rw [if_neg (by simp only [not_not]; exact h1)]
    by_cases h2 : pyEqStr (dictGet r ("title".toList) .null) notFoundLit = true
    · rw [if_pos h2]
      exact ⟨false, rfl⟩
    · rw [if_neg h2]
      obtain ⟨n, hn⟩ := pyLen_ok_of_isSized (ht h1)
      rw [hn]
      exact ⟨decide (5 < n), rfl⟩
  · rw [if_pos h1]
    exact ⟨false, rfl⟩

theorem check_has_methodology_ok (r : Record)
    (hm : truthy (dictGet r ("methodology".toList) .null) = true →
      isSized (dictGet r ("methodology".toList) .null) = true) :
    ∃ c, check_has_methodology r = .ok c := by
  unfold check_has_methodology
  by_cases h1 : truthy (dictGet r ("methodology".toList) .null) = true
  · rw [if_neg (by simp only [not_not]; exact h1)]
    by_cases h2 : pyEqStr (dictGet r ("methodology".toList) .null)
        notFoundLit = true
    · rw [if_pos h2]
      exact ⟨false, rfl⟩
    · rw [if_neg h2]
      obtain ⟨n, hn⟩ := pyLen_ok_of_isSized (hm h1)
      rw [hn]
      exact ⟨decide (20 < n), rfl⟩
  · rw [if_pos h1]
    exact ⟨false, rfl⟩

theorem check_has_findings_ok (r : Record)
    (hf : truthy (dictGet r ("key_findings".toList) .null) = true →
      isSized (dictGet r ("key_findings".toList) (.list [])) = true) :
    ∃ c, check_has_findings r = .ok c := by
  unfold check_has_findings
  by_cases h1 : truthy (dictGet r ("key_findings".toList) .null) = true
  · rw [if_neg (by simp only [not_not]; exact h1)]
    obtain ⟨n, hn⟩ := pyLen_ok_of_isSized (hf h1)
    rw [hn]
    exact ⟨decide (0 < n), rfl⟩
  · rw [if_pos h1]
    exact ⟨false, rfl⟩

/-- C7 (amended): validation never throws on records whose relevant present
values are sized where a length is taken — `title`, `methodology` and
`key_findings` need only be sized when truthy (falsy values short-circuit),
while `abstract` and `biomarkers` are measured without a truthiness guard,
so any present value there must be a string or a list.  Missing fields and
arbitrary `year`/`authors` values never throw.  (It does throw otherwise,
e.g. on a present null `abstract`.) -/
theorem C7_amended (r : Record)
    (ht : truthy (dictGet r ("title".toList) .null) = true →
      isSized (dictGet r ("title".toList) .null) = true)
    (hf : truthy (dictGet r ("key_findings".toList) .null) = true →
      isSized (dictGet r ("key_findings".toList) (.list [])) = true)
    (ha : isSized (dictGet r ("abstract".toList) (.str [])) = true)
    (hm : truthy (dictGet r ("methodology".toList) .null) = true →
      isSized (dictGet r ("methodology".toList) .null) = true)
    (hb : isSized (dictGet r ("biomarkers".toList) (.list [])) = true) :
    (validate_extraction r).isOk = true := by
  obtain ⟨c1, h1⟩ := check_has_title_ok r ht
  obtain ⟨c3, h3⟩ := check_has_findings_ok r hf
  obtain ⟨n5, h5⟩ := pyLen_ok_of_isSized ha
  obtain ⟨c6, h6⟩ := check_has_methodology_ok r hm
  obtain ⟨n7, h7⟩ := pyLen_ok_of_isSized hb
  have h5b : check_sufficient_abstract r = .ok (decide (50 < n5)) := by
    unfold check_sufficient_abstract
    rw [h5]
    rfl
  have h7b : check_has_biomarkers r = .ok (decide (0 < n7)) := by
    unfold check_has_biomarkers
    rw [h7]
    rfl
  unfold validate_extraction
  rw [h1, h3, h5b, h6, h7b]
  rfl

/-- Witness for C7 (amended): the empty record (every field missing)
validates without throwing. -/
theorem C7_amended_witness : (validate_extraction []).isOk = true :=
  C7_amended [] (by decide) (by decide) (by decide) (by decide) (by decide)
